import Mathlib

/-!
Shallow embedding of the version-resolution core of `blushft/sweet-release`
(files `version/generator.go`, `version/version.go`), together with the parts
of its dependency `github.com/blang/semver/v4` that the core calls
(`ParseTolerant`, `Parse`, `NewPRVersion`, `NewBuildVersion`, `Compare`/`GT`).

Modelling conventions:
* Go `string`s are Lean `String`s; byte-wise operations coincide on the ASCII
  data the program handles (semver identifiers are ASCII by construction).
* Go `int64` arithmetic in the build-ordinal computation is modelled exactly:
  `Time.Sub` saturates at ±(2^63-1) nanoseconds (≈ ±292 years), modelled by
  `elapsedSecondsInt64`, and the `int64` product and sum wrap in two's
  complement, modelled by `wrap64`; `ParseUint`'s 64-bit range check is
  modelled where the library performs it.
* Go's `/` on `int64` truncates toward zero: modelled by `Int.tdiv` (the
  divisor is the positive constant `secondsYear`, so the `MinInt64 / -1`
  overflow case cannot arise).
* `time.Time` values carry whole seconds in git commits, so
  `Duration.Seconds()` followed by `int64(...)` is exactly integer
  subtraction of unix-second timestamps; commit dates are modelled as `Int`
  unix seconds (UTC).  The zero `time.Time` is year 1, unix second
  -62135596800.
* Fallible Go functions returning `error` become `Except String`.
-/

namespace SweetRelease

/-- Decidable equality for `Except`, used to evaluate the embedding at
concrete inputs. -/
instance exceptDecEq {ε α : Type} [DecidableEq ε] [DecidableEq α] :
    DecidableEq (Except ε α) := fun a b =>
  match a, b with
  | .error x, .error y =>
    if h : x = y then isTrue (by rw [h])
    else isFalse (by intro hc; cases hc; exact h rfl)
  | .error _, .ok _ => isFalse (by intro hc; exact Except.noConfusion hc)
  | .ok _, .error _ => isFalse (by intro hc; exact Except.noConfusion hc)
  | .ok x, .ok y =>
    if h : x = y then isTrue (by rw [h])
    else isFalse (by intro hc; cases hc; exact h rfl)

/-! ## blang/semver v4 data model -/

/-- Mirrors `semver.PRVersion`: a pre-release identifier, either numeric
(`VersionNum`, `IsNum = true`) or alphanumeric (`VersionStr`). -/
structure PRVersion where
  versionStr : String
  versionNum : Nat
  isNum : Bool
deriving DecidableEq, Repr, Inhabited

/-- Mirrors `semver.Version`: major.minor.patch plus ordered pre-release and
build identifiers. -/
structure SemVersion where
  major : Nat
  minor : Nat
  patch : Nat
  pre : List PRVersion
  build : List String
deriving DecidableEq, Repr, Inhabited

/-- The character set `numbers` of blang/semver: `"0123456789"`. -/
def numberChars : List Char := "0123456789".toList

/-- The character set `alphas` of blang/semver:
`"abcdefghijklmnopqrstuvwxyzABCDEFGHIJKLMNOPQRSTUVWXYZ-"` (note the hyphen). -/
def alphaChars : List Char :=
  "abcdefghijklmnopqrstuvwxyzABCDEFGHIJKLMNOPQRSTUVWXYZ-".toList

/-- `alphanum = alphas + numbers` of blang/semver. -/
def alphanumChars : List Char := alphaChars ++ numberChars

/-- Mirrors blang/semver `containsOnly(s, set)`: every rune of `s` lies in
`set` (vacuously true for the empty string, as in Go).  Strings are scanned
through their character lists throughout this embedding; on the ASCII data
the semver grammar admits, bytes and characters coincide. -/
def containsOnly (s : String) (set : List Char) : Bool :=
  s.data.all (fun c => set.contains c)

/-- Mirrors blang/semver `hasLeadingZeroes(s)`: length above one and a
leading `'0'`. -/
def hasLeadingZeroes (s : String) : Bool :=
  s.length > 1 && s.data.head? == some '0'

/-- Mirrors Go `strconv.ParseUint(s, 10, 64)` restricted to the call sites in
blang/semver: fails on an empty string, a non-digit character, or a value
outside 64 bits. -/
def parseUint64 (s : String) : Except String Nat :=
  if s.data.isEmpty then .error "invalid syntax"
  else if !(s.data.all Char.isDigit) then .error "invalid syntax"
  else
    let n := s.data.foldl (fun acc c => acc * 10 + (c.toNat - 48)) 0
    if n < 2 ^ 64 then .ok n else .error "value out of range"

/-- Mirrors `semver.NewPRVersion`: numeric identifiers must not carry leading
zeroes; otherwise only `[0-9A-Za-z-]` is allowed. -/
def newPRVersion (s : String) : Except String PRVersion :=
  if s.data.isEmpty then .error "Prerelease is empty"
  else if containsOnly s numberChars then
    if hasLeadingZeroes s then
      .error "Numeric PreRelease version must not contain leading zeroes"
    else
      match parseUint64 s with
      | .error e => .error e
      | .ok n => .ok { versionStr := "", versionNum := n, isNum := true }
  else if containsOnly s alphanumChars then
    .ok { versionStr := s, versionNum := 0, isNum := false }
  else .error "PreRelease version must only contain [0-9A-Za-z-]"

/-- Mirrors `semver.NewBuildVersion`: non-empty and alphanumeric. -/
def newBuildVersion (s : String) : Except String String :=
  if s.data.isEmpty then .error "Buildversion is empty"
  else if !containsOnly s alphanumChars then
    .error "Invalid character(s) found in build meta data"
  else .ok s

/-- Go `strings.Split` on a one-character separator, over character lists:
splitting the empty string yields `[""]`, separators at the ends yield empty
pieces. -/
def splitOnChar (sep : Char) : List Char → List (List Char)
  | [] => [[]]
  | c :: rest =>
    if c == sep then [] :: splitOnChar sep rest
    else
      match splitOnChar sep rest with
      | [] => [[c]]
      | piece :: more => (c :: piece) :: more

/-- Mirrors Go `strings.SplitN(s, ".", 3)`: at most three pieces, the last one
keeping any further dots. -/
def splitN3 (s : String) : List String :=
  match splitOnChar '.' s.data with
  | [] => [s]
  | [a] => [⟨a⟩]
  | [a, b] => [⟨a⟩, ⟨b⟩]
  | a :: b :: rest => [⟨a⟩, ⟨b⟩, ⟨List.intercalate ['.'] rest⟩]

/-- Splits `s` at the first occurrence of `c` (Go `strings.IndexRune` plus
slicing): returns the part before and, when found, the part after. -/
def splitAtFirst (s : String) (c : Char) : String × Option String :=
  match s.data.findIdx? (fun x => x == c) with
  | none => (s, none)
  | some i => (⟨s.data.take i⟩, some ⟨s.data.drop (i + 1)⟩)

/-- Validates one build identifier inside `semver.Parse`: non-empty and
alphanumeric. -/
def checkBuildIdent (s : String) : Except String String :=
  if s.data.isEmpty then .error "Build meta data is empty"
  else if !containsOnly s alphanumChars then
    .error "Invalid character(s) found in build meta data"
  else .ok s

/-- Mirrors `semver.Parse`: strict parser requiring `major.minor.patch`,
optional `-pre.pre` and `+build.build` suffixes on the third piece. -/
def parse (s : String) : Except String SemVersion :=
  if s.data.isEmpty then .error "Version string empty"
  else
    match splitN3 s with
    | [majS, minS, restS] =>
      if !containsOnly majS numberChars then
        .error "Invalid character(s) found in major number"
      else if hasLeadingZeroes majS then
        .error "Major number must not contain leading zeroes"
      else
        match parseUint64 majS with
        | .error e => .error e
        | .ok major =>
          if !containsOnly minS numberChars then
            .error "Invalid character(s) found in minor number"
          else if hasLeadingZeroes minS then
            .error "Minor number must not contain leading zeroes"
          else
            match parseUint64 minS with
            | .error e => .error e
            | .ok minor =>
              let (afterBuild, buildStrs) := splitAtFirst restS '+'
              let buildList : List String := match buildStrs with
                | none => []
                | some b => (splitOnChar '.' b.data).map (fun l => (⟨l⟩ : String))
              let (patchS, preStrs) := splitAtFirst afterBuild '-'
              let preList : List String := match preStrs with
                | none => []
                | some p => (splitOnChar '.' p.data).map (fun l => (⟨l⟩ : String))
              if !containsOnly patchS numberChars then
                .error "Invalid character(s) found in patch number"
              else if hasLeadingZeroes patchS then
                .error "Patch number must not contain leading zeroes"
              else
                match parseUint64 patchS with
                | .error e => .error e
                | .ok patch =>
                  match preList.mapM newPRVersion with
                  | .error e => .error e
                  | .ok pres =>
                    match buildList.mapM checkBuildIdent with
                    | .error e => .error e
                    | .ok builds =>
                      .ok { major := major, minor := minor, patch := patch,
                            pre := pres, build := builds }
    | _ => .error "No Major.Minor.Patch elements found"

/-- The leading-zero cleanup loop of `semver.ParseTolerant`: on pieces longer
than one character, strip leading zeroes and re-add a single `'0'` when the
remainder is empty or starts with a non-digit. -/
def cleanLeadingZeros (p : String) : String :=
  if p.length > 1 then
    match p.data.dropWhile (fun c => c == '0') with
    | [] => "0"
    | c :: q => if c.isDigit then ⟨c :: q⟩ else ⟨'0' :: c :: q⟩
  else p

/-- Whether the string contains `'+'` or `'-'` (Go
`strings.ContainsAny(s, "+-")`). -/
def hasPreBuildChar (s : String) : Bool :=
  s.data.any (fun c => c == '+' || c == '-')

/-- Go `strings.TrimSpace` over character lists (drop whitespace from both
ends; `Char.isWhitespace` covers the ASCII whitespace the version data
holds). -/
def trimChars (l : List Char) : List Char :=
  ((l.dropWhile Char.isWhitespace).reverse.dropWhile Char.isWhitespace).reverse

/-- Mirrors `semver.ParseTolerant`: trim whitespace, drop one leading `"v"`,
clean leading zeroes on each of the at-most-three dot pieces, pad a short
version with `".0"` pieces unless its last piece already carries pre-release
or build data, then parse strictly. -/
def parseTolerant (s : String) : Except String SemVersion :=
  let t0 : List Char := trimChars s.data
  let t : String := match t0 with
    | 'v' :: rest => ⟨rest⟩
    | _ => ⟨t0⟩
  match (splitN3 t).map cleanLeadingZeros with
  | [a] =>
    if hasPreBuildChar a then
      .error "Short version cannot contain PreRelease/Build meta data"
    else parse (a ++ ".0.0")
  | [a, b] =>
    if hasPreBuildChar b then
      .error "Short version cannot contain PreRelease/Build meta data"
    else parse (a ++ "." ++ b ++ ".0")
  | parts => parse (String.intercalate "." parts)

/-- Go `strings.Compare` over character lists: lexicographic byte order,
identical to character order on the ASCII identifiers the parser admits. -/
def charsCompare : List Char → List Char → Int
  | [], [] => 0
  | [], _ :: _ => -1
  | _ :: _, [] => 1
  | a :: as, b :: bs =>
    if a.toNat < b.toNat then -1
    else if b.toNat < a.toNat then 1
    else charsCompare as bs

/-- Mirrors `semver.PRVersion.Compare`: numeric identifiers sort below
alphanumeric ones; numeric compare numerically, alphanumeric by
`strings.Compare`. -/
def prCompare (a b : PRVersion) : Int :=
  if a.isNum && !b.isNum then -1
  else if !a.isNum && b.isNum then 1
  else if a.isNum && b.isNum then
    if a.versionNum == b.versionNum then 0
    else if a.versionNum > b.versionNum then 1
    else -1
  else charsCompare a.versionStr.data b.versionStr.data

/-- The pairwise pre-release comparison loop of `semver.Version.Compare`,
including the tail rule: equal common prefix, then the longer list wins. -/
def preListCompare : List PRVersion → List PRVersion → Int
  | [], [] => 0
  | [], _ :: _ => -1
  | _ :: _, [] => 1
  | a :: as, b :: bs =>
    let c := prCompare a b
    if c == 0 then preListCompare as bs else c

/-- Mirrors `semver.Version.Compare`: numeric triple first, then a version
without pre-release identifiers outranks one with them, then the pre-release
lists pairwise; build metadata is ignored. -/
def svCompare (v o : SemVersion) : Int :=
  if v.major != o.major then (if v.major > o.major then 1 else -1)
  else if v.minor != o.minor then (if v.minor > o.minor then 1 else -1)
  else if v.patch != o.patch then (if v.patch > o.patch then 1 else -1)
  else if v.pre.isEmpty && o.pre.isEmpty then 0
  else if v.pre.isEmpty && !o.pre.isEmpty then 1
  else if !v.pre.isEmpty && o.pre.isEmpty then -1
  else preListCompare v.pre o.pre

/-- Mirrors `semver.Version.GT`. -/
def svGT (v o : SemVersion) : Bool :=
  svCompare v o == 1

/-! ## Repository facts

The generator queries the repository through go-git.  Each query's result is a
field of `RepoFacts`; the generator code never controls what the store
returns, so the facts are free inputs of the embedding. -/

/-- A commit object as the generator observes it: content hash (abstracted to
`Nat`; `0` plays the role of `plumbing.ZeroHash`, which no real object has),
parent count, and committer timestamp in unix seconds (UTC). -/
structure Commit where
  hash : Nat
  numParents : Nat
  committerTime : Int
deriving DecidableEq, Repr, Inhabited

/-- The repository facts consumed by `NewGenerator`/`Generate`:
* `isClean` — `Worktree().Status().IsClean()`;
* `headBranch` — `Head().Name().Short()`;
* `currentCommit` — `ResolveRevision(conf.Revision)` plus its commit object;
* `allLog` — the sequence yielded by `repo.Log(All, LogOrderCommitterTime)`,
  in iteration order;
* `headLog` — the commits reachable from head, as iterated by `repo.Log`
  with a `Since` filter (the filter itself is part of the embedding);
* `tags` — the `(short name, Hash())` pairs yielded by `repo.Tags()`, in
  iteration order;
* `commits` — the commit objects addressable by `CommitObject`;
* `versionFile` — contents of the working-tree version file, `none` when the
  file does not exist. -/
structure RepoFacts where
  isClean : Bool
  headBranch : String
  currentCommit : Commit
  allLog : List Commit
  headLog : List Commit
  tags : List (String × Nat)
  commits : List Commit
  versionFile : Option String
deriving DecidableEq, Repr, Inhabited

/-- Mirrors `repo.CommitObject(h)`: the stored commit with hash `h`, or the
`object not found` failure. -/
def commitObject (facts : RepoFacts) (h : Nat) : Except String Commit :=
  match facts.commits.find? (fun c => c.hash == h) with
  | none => .error "object not found"
  | some c => .ok c

/-! ## Generator configuration and state (`version/generator.go`) -/

/-- Mirrors `version.Config` (the fields the resolution logic reads;
`RepoPath`, `Clone` and `Revision` are consumed by the repository queries and
live in `RepoFacts`). -/
structure Config where
  timeMultiplier : Int
  addSnapshot : Bool
  versionFileName : String
  fromFile : Bool
  fromTag : Bool
  stableBranches : List String
deriving DecidableEq, Repr, Inhabited

/-- `secondsYear int64 = 60 * 60 * 24 * 365`. -/
def secondsYear : Int := 60 * 60 * 24 * 365

/-- Unix seconds of the zero `time.Time` (January 1, year 1 UTC): the initial
value of the generator's date fields. -/
def goZeroTime : Int := -62135596800

/-- Mirrors the mutable `version.Generator` value (its repository handles are
replaced by `RepoFacts`). -/
structure GenState where
  conf : Config
  branch : String
  semVer : Option SemVersion
  currentCommitHash : Nat
  versionCommit : Option Nat
  initialCommit : Option Nat
  initialCommitDate : Int
  currentCommitDate : Int
  versionCommitDate : Int
  commitCount : Int
  isSnapshot : Bool
  isPre : Bool
deriving DecidableEq, Repr, Inhabited

/-- The zero-valued `Generator` allocated at the top of `NewGenerator`
(with `IsSnapshot` already folded in from the cleanliness gate). -/
def initState (conf : Config) (isSnap : Bool) : GenState :=
  { conf := conf, branch := "", semVer := none, currentCommitHash := 0,
    versionCommit := none, initialCommit := none,
    initialCommitDate := goZeroTime, currentCommitDate := goZeroTime,
    versionCommitDate := goZeroTime, commitCount := 0,
    isSnapshot := isSnap, isPre := false }

/-- An ASCII hex digit (lowercase), as `plumbing.Hash.String` produces. -/
def hexDigit (n : Nat) : Char :=
  if n < 10 then Char.ofNat (48 + n) else Char.ofNat (87 + n)

/-- Mirrors `plumbing.Hash.String()`: the 40-character lowercase hex rendering
of the 160-bit hash value. -/
def hashHex (h : Nat) : String :=
  ⟨(List.range 40).map (fun i => hexDigit (h / 16 ^ (39 - i) % 16))⟩

/-- An ASCII lower-casing of one character. -/
def asciiLower (c : Char) : Char :=
  if 'A' ≤ c && c ≤ 'Z' then Char.ofNat (c.toNat + 32) else c

/-- Mirrors `strings.EqualFold` on the ASCII data the configuration holds:
equality after lowercasing. -/
def equalFold (a b : String) : Bool :=
  a.data.map asciiLower == b.data.map asciiLower

/-- Mirrors `Generator.getBranch`: record the head's short name and decide
pre-release status — `IsPre` starts `true` and is cleared by the first
case-insensitive match against the stable-branch set. -/
def getBranch (facts : RepoFacts) (st : GenState) : GenState :=
  { st with branch := facts.headBranch,
            isPre := !(st.conf.stableBranches.any
              (fun s => equalFold facts.headBranch s)) }

/-- Mirrors `Generator.getCurrentCommit`: resolve the configured revision and
record the commit hash and committer timestamp (UTC). -/
def getCurrentCommit (facts : RepoFacts) (st : GenState) : GenState :=
  { st with currentCommitHash := facts.currentCommit.hash,
            currentCommitDate := facts.currentCommit.committerTime }

/-- The body of the `rlog.ForEach` callback in `Generator.getInitialCommit`:
a commit with zero parents overwrites the recorded initial commit. -/
def initStep (s : GenState) (c : Commit) : GenState :=
  if c.numParents == 0 then
    { s with initialCommit := some c.hash,
             initialCommitDate := c.committerTime }
  else s

/-- Mirrors `Generator.getInitialCommit`: walk the full log in the order the
store yields it, feeding every commit to `initStep` (so the last zero-parent
commit in the walk wins), and record the total count of walked commits as
`CommitCount`. -/
def getInitialCommit (facts : RepoFacts) (st : GenState) : GenState :=
  let st := facts.allLog.foldl initStep st
  { st with commitCount := (facts.allLog.length : Int) }

/-- Mirrors `Generator.getCommitCountFrom`: `repo.Log(Since: from)` yields the
head-reachable commits whose committer time is not before `tFrom`; the
function counts them. -/
def getCommitCountFrom (facts : RepoFacts) (tFrom : Int) : Int :=
  ((facts.headLog.filter (fun c => decide (tFrom ≤ c.committerTime))).length : Int)

/-- Mirrors `Generator.getVersionFile`: a missing file is a normal empty
result; otherwise the trimmed contents must parse tolerantly and seed
`SemVer`. -/
def getVersionFile (facts : RepoFacts) (st : GenState) :
    Except String GenState :=
  match facts.versionFile with
  | none => .ok st
  | some contents =>
    match parseTolerant ⟨trimChars contents.data⟩ with
    | .error e => .error e
    | .ok sv => .ok { st with semVer := some sv }

/-! ### Tag lookup (`Generator.getVersionByTag`) -/

/-- Go-map insertion `svts[h] = v`: overwrite the entry with key `h` when
present, otherwise append.  The list keeps the map's contents in first-insert
order; Go iterates the same set of entries in an arbitrary order. -/
def insertOverwrite (h : Nat) (v : SemVersion) :
    List (Nat × SemVersion) → List (Nat × SemVersion)
  | [] => [(h, v)]
  | (h0, v0) :: rest =>
    if h0 == h then (h0, v) :: rest
    else (h0, v0) :: insertOverwrite h v rest

/-- The tag-scan loop of `getVersionByTag`: iterate the tag references in
order; at the first tag whose `Hash()` equals the current commit, record its
short name as `cctag` and stop (`cont = false`); every other tag whose name
parses tolerantly is inserted into the `svts` map.  Returns the final
`cctag` (Go's zero value `""` when no tag matched) and `svts`. -/
def scanTagsAux (cur : Nat) :
    List (String × Nat) → List (Nat × SemVersion) →
    String × List (Nat × SemVersion)
  | [], svts => ("", svts)
  | (name, h) :: rest, svts =>
    if h == cur then (name, svts)
    else
      match parseTolerant name with
      | .ok v => scanTagsAux cur rest (insertOverwrite h v svts)
      | .error _ => scanTagsAux cur rest svts

/-- State of the selection loop over `svts`: `latestSet` models
`latest != nil`, `vh` the selected hash, and `t`/`h` the shared per-loop
iteration variables.  Both assignments to `latest` store `&t`, the address of
the single loop variable (the module predates Go 1.22 per-iteration loop
variables), so a read of `*latest` always yields the current value of `t`. -/
structure LoopState where
  latestSet : Bool
  vh : Nat
  t : SemVersion
  h : Nat
deriving DecidableEq, Repr, Inhabited

/-- One iteration of the selection loop

```
for h, t := range svts {
    if latest == nil { vh = h; latest = &t }
    if t.GT(*latest) { vh = h; latest = &t }
}
```

with `*latest` replaced by the value of `t` it aliases once `latest` is set
(which the first conditional guarantees before the second one reads it). -/
def selectLoopStep (st : LoopState) (e : Nat × SemVersion) : LoopState :=
  let st := { st with h := e.1, t := e.2 }
  let st := if !st.latestSet then { st with vh := st.h, latestSet := true }
            else st
  if svGT st.t st.t then { st with vh := st.h } else st

/-- Runs the selection loop over the map entries in the iteration order
`order` and reads out `(vh, latest)`: `vh` as left by the loop, and `latest`
dereferenced after the loop (pointing at the loop variable, hence the value
of the final iteration) — `none` when the loop never ran. -/
def selectTag (order : List (Nat × SemVersion)) : Nat × Option SemVersion :=
  let fin := order.foldl selectLoopStep
    { latestSet := false, vh := 0, t := default, h := 0 }
  (fin.vh, if fin.latestSet then some fin.t else none)

/-- The part of `Generator.getVersionByTag` after the exact-match attempt has
failed: fatal under `FromTag && !AddSnapshot`, otherwise mark a snapshot,
require a non-empty `svts` under `FromTag`, run the selection loop over the
map iteration order, and look up the selected commit. -/
def tagFallback (facts : RepoFacts) (order : List (Nat × SemVersion))
    (svts : List (Nat × SemVersion)) (st : GenState) : Except String GenState :=
  if st.conf.fromTag && !st.conf.addSnapshot then
    .error ("could not find tag for commit " ++ hashHex st.currentCommitHash)
  else
    let st := { st with isSnapshot := true }
    if svts.isEmpty && st.conf.fromTag then
      .error "could not find version tag for SNAPSHOT"
    else
      let sel := selectTag order
      match commitObject facts sel.1 with
      | .error e => .error e
      | .ok vc =>
        .ok { st with versionCommit := some sel.1,
                      versionCommitDate := vc.committerTime,
                      semVer := sel.2 }

/-- Mirrors `Generator.getVersionByTag`: scan the tag references; when the
scan produced a `cctag` (a tag at the current commit) whose name parses
tolerantly, that is an exact release match recorded against the current
commit; otherwise fall back to the snapshot path.  `order` is the (arbitrary,
run-dependent) Go-map iteration order of the collected `svts` entries; a
faithful instantiation permutes `(scanTagsAux cur tags []).2`. -/
def getVersionByTag (facts : RepoFacts) (order : List (Nat × SemVersion))
    (st : GenState) : Except String GenState :=
  let scanned := scanTagsAux st.currentCommitHash facts.tags []
  let cctag := scanned.1
  let exactSV : Option SemVersion :=
    if cctag.length > 0 then
      match parseTolerant cctag with
      | .ok sv => some sv
      | .error _ => none
    else none
  match exactSV with
  | some sv =>
    .ok { st with versionCommit := some st.currentCommitHash,
                  versionCommitDate := st.currentCommitDate,
                  semVer := some sv }
  | none => tagFallback facts order scanned.2 st

/-- Mirrors `Generator.getVersion`: try the version file first (its failure is
fatal only under `FromFile`, and it mutates nothing before failing); keep a
file-sourced version unless `FromTag` forces the tag lookup. -/
def getVersion (facts : RepoFacts) (order : List (Nat × SemVersion))
    (st : GenState) : Except String GenState :=
  let afterFile : Except String GenState :=
    match getVersionFile facts st with
    | .error e => if st.conf.fromFile then .error e else .ok st
    | .ok st1 => .ok st1
  match afterFile with
  | .error e => .error e
  | .ok st2 =>
    if st2.semVer.isSome && !st2.conf.fromTag then .ok st2
    else getVersionByTag facts order st2

/-- Mirrors `version.NewGenerator`: cleanliness gate (dirty plus
`!AddSnapshot` is fatal, dirty otherwise marks a snapshot), then branch,
current commit, initial commit and base-version resolution in order. -/
def NewGenerator (conf : Config) (facts : RepoFacts)
    (order : List (Nat × SemVersion)) : Except String GenState :=
  if !facts.isClean && !conf.addSnapshot then
    .error "repository is not clean and add snapshot config is false"
  else
    let st := initState conf (!facts.isClean)
    let st := getBranch facts st
    let st := getCurrentCommit facts st
    let st := getInitialCommit facts st
    getVersion facts order st

/-- Mirrors `version.Version` (`version.go`, current revision): the record
handed to the rendering collaborator. -/
structure Version where
  branch : String
  commit : String
  shortCommit : String
  semver : SemVersion
  buildID : Int
deriving DecidableEq, Repr, Inhabited

/-- Two's-complement wraparound of an unbounded integer into the `int64`
range `[-2^63, 2^63)`, as Go multiplication and addition overflow behave.
The result depends only on the argument modulo `2^64`, so feeding it a value
that is itself only correct modulo `2^64` (for example an unreduced Go
counter) still yields the value the program holds. -/
def wrap64 (n : Int) : Int :=
  (n + 2 ^ 63) % 2 ^ 64 - 2 ^ 63

/-- `int64(maxDuration.Seconds())`: the saturated `time.Duration`
(±(2^63-1) ns) truncates to ±9223372036 whole seconds. -/
def maxDurationSeconds : Int := 9223372036

/-- `int64(CurrentCommitDate.Sub(InitialCommitDate).Seconds())` for
whole-second git timestamps: `Time.Sub` returns the exact difference when it
fits in an `int64` of nanoseconds and saturates to `minDuration`/`maxDuration`
otherwise; `Seconds()` of a duration in that range is a float64 whose
truncation to `int64` is exact (the whole-second part is below `2^53`), and
the saturated durations truncate to ±9223372036.  The composite is exactly a
clamp of the second difference to `[-9223372036, 9223372036]`. -/
def elapsedSecondsInt64 (cur init : Int) : Int :=
  max (-maxDurationSeconds) (min (cur - init) maxDurationSeconds)

/-- `tf := int64(cdiff) * gen.Conf.TimeMultiplier / secondsYear` of
`Generator.Generate`: the `int64` product wraps on overflow, the division
truncates toward zero. -/
def scaledTimeUnits (st : GenState) : Int :=
  (wrap64 (elapsedSecondsInt64 st.currentCommitDate st.initialCommitDate *
    st.conf.timeMultiplier)).tdiv secondsYear

/-- The `rev` computation at the top of `Generator.Generate`:
`cdiff := CurrentCommitDate.Sub(InitialCommitDate).Seconds()` (saturating,
see `elapsedSecondsInt64`), then `tf := int64(cdiff) * TimeMultiplier /
secondsYear` (wrapping product, truncating division, see `scaledTimeUnits`),
and `rev := CommitCount + tf` with wrapping `int64` addition. -/
def buildOrdinal (st : GenState) : Int :=
  wrap64 (st.commitCount + scaledTimeUnits st)

/-- The `if gen.IsPre { ... }` block of `Generate`: a non-stable branch name
becomes one more pre-release identifier, or fails. -/
def applyPre (st : GenState) (sv0 : SemVersion) : Except String SemVersion :=
  if st.isPre then
    match newPRVersion st.branch with
    | .error e => .error e
    | .ok pre => .ok { sv0 with pre := sv0.pre ++ [pre] }
  else .ok sv0

/-- The build-metadata block of `Generate`: always `rev, <rev>`; for a
snapshot additionally `SNAPSHOT` and the commit count since the version
commit date. -/
def buildMeta (facts : RepoFacts) (st : GenState) (rev : Int) :
    Except String (List String) :=
  let build0 : List String := ["rev", toString rev]
  if st.isSnapshot then
    match newBuildVersion "SNAPSHOT" with
    | .error e => .error e
    | .ok snap =>
      let scnt := getCommitCountFrom facts st.versionCommitDate
      .ok (build0 ++ [snap, toString scnt])
  else .ok build0

/-- Mirrors `Generator.Generate`: compute the build ordinal, attach the
pre-release identifier for a non-stable branch, attach build metadata, and
assemble the `Version` record.  A `nil` `SemVer` would be dereferenced in Go
(a panic), modelled as an error; that state is unreachable from a successful
`NewGenerator`. -/
def Generate (facts : RepoFacts) (st : GenState) : Except String Version :=
  let rev : Int := buildOrdinal st
  let ssha : String := ⟨(hashHex st.currentCommitHash).data.take 7⟩
  match st.semVer with
  | none => .error "runtime error: invalid memory address or nil pointer dereference"
  | some sv0 =>
    match applyPre st sv0 with
    | .error e => .error e
    | .ok sv1 =>
      match buildMeta facts st rev with
      | .error e => .error e
      | .ok build =>
        .ok { branch := st.branch,
              commit := hashHex st.currentCommitHash,
              shortCommit := ssha,
              semver := { sv1 with build := build },
              buildID := rev }

/-- Mirrors `version.New` (current revision): build the generator, then
generate. -/
def ResolveVersion (conf : Config) (facts : RepoFacts)
    (order : List (Nat × SemVersion)) : Except String Version :=
  match NewGenerator conf facts order with
  | .error e => .error e
  | .ok gen => Generate facts gen

/-! ## Supporting lemmas -/

/-- Toward-zero integer division by a positive divisor is monotone in the
dividend (the property Go's `int64` division contributes to the build
ordinal). -/
theorem tdiv_le_tdiv_of_le {a b d : Int} (hd : 0 < d) (hab : a ≤ b) :
    a.tdiv d ≤ b.tdiv d := by
  rcases le_or_lt 0 a with ha | ha
  · rw [Int.tdiv_eq_ediv ha hd.le, Int.tdiv_eq_ediv (le_trans ha hab) hd.le]
    exact Int.ediv_le_ediv hd hab
  · rcases le_or_lt 0 b with hb | hb
    · have e1 : (-a).tdiv d = -(a.tdiv d) := Int.neg_tdiv a d
      have h2 : 0 ≤ (-a).tdiv d := Int.tdiv_nonneg (by omega) hd.le
      have h3 : 0 ≤ b.tdiv d := Int.tdiv_nonneg hb hd.le
      omega
    · have key : (-b).tdiv d ≤ (-a).tdiv d := by
        rw [Int.tdiv_eq_ediv (by omega : (0:Int) ≤ -b) hd.le,
            Int.tdiv_eq_ediv (by omega : (0:Int) ≤ -a) hd.le]
        exact Int.ediv_le_ediv hd (by omega)
      have e1 : (-a).tdiv d = -(a.tdiv d) := Int.neg_tdiv a d
      have e2 : (-b).tdiv d = -(b.tdiv d) := Int.neg_tdiv b d
      omega

/-- Wrapping is the identity on values already inside the `int64` range. -/
theorem wrap64_eq_self {n : Int} (h1 : -(2 ^ 63) ≤ n) (h2 : n < 2 ^ 63) :
    wrap64 n = n := by
  unfold wrap64
  omega

/-- The saturating elapsed-seconds computation is monotone in the current
commit timestamp. -/
theorem elapsedSecondsInt64_mono {cur1 cur2 init : Int} (h : cur1 ≤ cur2) :
    elapsedSecondsInt64 cur1 init ≤ elapsedSecondsInt64 cur2 init := by
  unfold elapsedSecondsInt64
  have h0 : cur1 - init ≤ cur2 - init := by omega
  exact max_le_max le_rfl (min_le_min h0 le_rfl)

/-- Every successful `Generate` reports the build ordinal computed by
`buildOrdinal`. -/
theorem generate_ok_buildID {facts : RepoFacts} {st : GenState} {v : Version}
    (h : Generate facts st = .ok v) : v.buildID = buildOrdinal st := by
  unfold Generate at h
  cases hsv : st.semVer with
  | none => rw [hsv] at h; exact Except.noConfusion h
  | some sv0 =>
    rw [hsv] at h
    dsimp only at h
    cases hpre : applyPre st sv0 with
    | error e => rw [hpre] at h; exact Except.noConfusion h
    | ok sv1 =>
      rw [hpre] at h
      cases hsnap : buildMeta facts st (buildOrdinal st) with
      | error e => rw [hsnap] at h; exact Except.noConfusion h
      | ok build => rw [hsnap] at h; cases h; rfl

/-- Successful build metadata is `rev, <rev>`, extended for snapshots by
`SNAPSHOT` and the commit count since the version commit date. -/
theorem buildMeta_ok {facts : RepoFacts} {st : GenState} {rev : Int}
    {build : List String} (h : buildMeta facts st rev = .ok build) :
    build = ["rev", toString rev] ++
      (if st.isSnapshot then
        ["SNAPSHOT", toString (getCommitCountFrom facts st.versionCommitDate)]
      else []) := by
  unfold buildMeta at h
  cases hs : st.isSnapshot with
  | false =>
    rw [hs] at h
    simp only [Bool.false_eq_true, if_false] at h ⊢
    cases h; rfl
  | true =>
    rw [hs] at h
    simp only [if_true] at h ⊢
    rw [show newBuildVersion "SNAPSHOT" = .ok "SNAPSHOT" from rfl] at h
    dsimp only at h
    cases h; rfl

/-- The build identifiers a successful `Generate` attaches to the semantic
version. -/
theorem generate_ok_build {facts : RepoFacts} {st : GenState} {v : Version}
    (h : Generate facts st = .ok v) :
    v.semver.build = ["rev", toString v.buildID] ++
      (if st.isSnapshot then
        ["SNAPSHOT", toString (getCommitCountFrom facts st.versionCommitDate)]
      else []) := by
  have hb := generate_ok_buildID h
  unfold Generate at h
  cases hsv : st.semVer with
  | none => rw [hsv] at h; exact Except.noConfusion h
  | some sv0 =>
    rw [hsv] at h
    dsimp only at h
    cases hpre : applyPre st sv0 with
    | error e => rw [hpre] at h; exact Except.noConfusion h
    | ok sv1 =>
      rw [hpre] at h
      cases hsnap : buildMeta facts st (buildOrdinal st) with
      | error e => rw [hsnap] at h; exact Except.noConfusion h
      | ok build =>
        rw [hsnap] at h
        cases h
        have hbm := buildMeta_ok hsnap
        simpa [hb] using hbm

/-- `applyPre` on a pre-release state with a parseable branch name appends
that identifier. -/
theorem applyPre_pre_ok {st : GenState} {sv0 : SemVersion} {p : PRVersion}
    (hp : st.isPre = true) (hpr : newPRVersion st.branch = .ok p) :
    applyPre st sv0 = .ok { sv0 with pre := sv0.pre ++ [p] } := by
  unfold applyPre
  rw [hp, if_pos rfl, hpr]

/-- `applyPre` on a pre-release state with an unparseable branch name fails
with the parser's error. -/
theorem applyPre_pre_err {st : GenState} {sv0 : SemVersion} {e : String}
    (hp : st.isPre = true) (hpr : newPRVersion st.branch = .error e) :
    applyPre st sv0 = .error e := by
  unfold applyPre
  rw [hp, if_pos rfl, hpr]

/-- A successful `Generate` on a pre-release state appends the branch
identifier after the base version's own pre-release identifiers. -/
theorem generate_ok_pre {facts : RepoFacts} {st : GenState} {v : Version}
    {sv0 : SemVersion} {p : PRVersion}
    (hsv : st.semVer = some sv0) (hp : st.isPre = true)
    (hpr : newPRVersion st.branch = .ok p)
    (h : Generate facts st = .ok v) :
    v.semver.pre = sv0.pre ++ [p] := by
  unfold Generate at h
  rw [hsv] at h
  dsimp only at h
  rw [applyPre_pre_ok hp hpr] at h
  dsimp only at h
  cases hsnap : buildMeta facts st (buildOrdinal st) with
  | error e => rw [hsnap] at h; exact Except.noConfusion h
  | ok build => rw [hsnap] at h; cases h; rfl

/-- `Generate` fails outright when the branch must become a pre-release
identifier but is not a valid one. -/
theorem generate_err_of_pre_err {facts : RepoFacts} {st : GenState}
    {sv0 : SemVersion} {e : String}
    (hsv : st.semVer = some sv0) (hp : st.isPre = true)
    (hpr : newPRVersion st.branch = .error e) :
    Generate facts st = .error e := by
  unfold Generate
  rw [hsv]
  dsimp only
  rw [applyPre_pre_err hp hpr]

/-- The snapshot commit count is a list length, hence non-negative. -/
theorem getCommitCountFrom_nonneg (facts : RepoFacts) (tFrom : Int) :
    0 ≤ getCommitCountFrom facts tFrom :=
  Int.natCast_nonneg _

/-- The `ForEach` fold of `getInitialCommit` only writes the initial-commit
fields. -/
theorem foldl_initStep_spec : ∀ (l : List Commit) (st : GenState),
    ∃ ic icd, l.foldl initStep st =
      { st with initialCommit := ic, initialCommitDate := icd } := by
  intro l
  induction l with
  | nil => intro st; exact ⟨st.initialCommit, st.initialCommitDate, rfl⟩
  | cons c rest ih =>
    intro st
    simp only [List.foldl_cons]
    obtain ⟨ic, icd, h⟩ := ih (initStep st c)
    refine ⟨ic, icd, ?_⟩
    rw [h]
    unfold initStep
    split <;> rfl

/-- `getInitialCommit` writes the initial-commit fields and the total commit
count, and nothing else. -/
theorem getInitialCommit_spec (facts : RepoFacts) (st : GenState) :
    ∃ ic icd, getInitialCommit facts st =
      { st with initialCommit := ic, initialCommitDate := icd,
                commitCount := (facts.allLog.length : Int) } := by
  unfold getInitialCommit
  obtain ⟨ic, icd, h⟩ := foldl_initStep_spec facts.allLog st
  exact ⟨ic, icd, by rw [h]⟩

/-- A missing version file is a normal empty result of `getVersionFile`,
never an error. -/
theorem getVersionFile_none {facts : RepoFacts} {st : GenState}
    (h : facts.versionFile = none) : getVersionFile facts st = .ok st := by
  unfold getVersionFile
  rw [h]

/-- A successful `getVersionFile` only (possibly) writes `semVer`. -/
theorem getVersionFile_ok_spec {facts : RepoFacts} {st st1 : GenState}
    (h : getVersionFile facts st = .ok st1) :
    st1 = st ∨ ∃ sv, st1 = { st with semVer := some sv } := by
  unfold getVersionFile at h
  cases hvf : facts.versionFile with
  | none => rw [hvf] at h; cases h; exact Or.inl rfl
  | some contents =>
    rw [hvf] at h
    dsimp only at h
    cases hp : parseTolerant ⟨trimChars contents.data⟩ with
    | error e => rw [hp] at h; exact Except.noConfusion h
    | ok sv => rw [hp] at h; cases h; exact Or.inr ⟨sv, rfl⟩

/-- When a tag pointing at the current commit exists, `scanTagsAux` returns
the name of the first such tag as `cctag`, whatever the accumulated map. -/
theorem scanTags_cctag_of_find {cur : Nat} :
    ∀ (tags : List (String × Nat)) (pr : String × Nat),
      tags.find? (fun p => p.2 == cur) = some pr →
      ∀ m, (scanTagsAux cur tags m).1 = pr.1 := by
  intro tags
  induction tags with
  | nil => intro pr h m; simp [List.find?] at h
  | cons hd rest ih =>
    intro pr h m
    rcases hd with ⟨name, hsh⟩
    rw [List.find?_cons] at h
    unfold scanTagsAux
    dsimp only at h ⊢
    cases hc : hsh == cur with
    | true =>
      rw [hc] at h
      dsimp only at h
      cases h
      simp [hc]
    | false =>
      rw [hc] at h
      dsimp only at h
      simp only [hc, Bool.false_eq_true, if_false]
      cases hp : parseTolerant name with
      | ok v => exact ih pr h (insertOverwrite hsh v m)
      | error e => exact ih pr h m

/-- The `cctag` produced by `scanTagsAux` is either Go's zero value `""` or
the name of one of the scanned tags. -/
theorem scanTags_cctag_mem (cur : Nat) :
    ∀ (tags : List (String × Nat)) (m : List (Nat × SemVersion)),
      (scanTagsAux cur tags m).1 = "" ∨
      ∃ h, ((scanTagsAux cur tags m).1, h) ∈ tags := by
  intro tags
  induction tags with
  | nil => intro m; exact Or.inl rfl
  | cons hd rest ih =>
    intro m
    rcases hd with ⟨name, hsh⟩
    unfold scanTagsAux
    cases hc : hsh == cur with
    | true =>
      simp only [hc, if_true]
      exact Or.inr ⟨hsh, List.mem_cons_self _ _⟩
    | false =>
      simp only [hc, Bool.false_eq_true, if_false]
      cases hp : parseTolerant name with
      | ok v =>
        rcases ih (insertOverwrite hsh v m) with h0 | ⟨hh, hmem⟩
        · exact Or.inl h0
        · exact Or.inr ⟨hh, List.mem_cons_of_mem _ hmem⟩
      | error e =>
        rcases ih m with h0 | ⟨hh, hmem⟩
        · exact Or.inl h0
        · exact Or.inr ⟨hh, List.mem_cons_of_mem _ hmem⟩

/-- A successful `tagFallback` always marks the snapshot flag. -/
theorem tagFallback_ok_snapshot {facts : RepoFacts}
    {order svts : List (Nat × SemVersion)} {st st2 : GenState}
    (h : tagFallback facts order svts st = .ok st2) :
    st2.isSnapshot = true := by
  unfold tagFallback at h
  split at h
  · exact Except.noConfusion h
  · dsimp only at h
    split at h
    · exact Except.noConfusion h
    · split at h
      · exact Except.noConfusion h
      · cases h; rfl

/-- A successful `getVersionByTag` keeps an already-set snapshot flag. -/
theorem getVersionByTag_ok_snapshot {facts : RepoFacts}
    {order : List (Nat × SemVersion)} {st st2 : GenState}
    (hs : st.isSnapshot = true) (h : getVersionByTag facts order st = .ok st2) :
    st2.isSnapshot = true := by
  unfold getVersionByTag at h
  dsimp only at h
  split at h
  · cases h; exact hs
  · exact tagFallback_ok_snapshot h

/-- `Except.isOk` as a Boolean, for stating decidable parse-failure
hypotheses. -/
def exceptIsOk {ε α : Type} : Except ε α → Bool
  | .ok _ => true
  | .error _ => false

/-- A successful `getVersion` keeps an already-set snapshot flag. -/
theorem getVersion_ok_snapshot {facts : RepoFacts}
    {order : List (Nat × SemVersion)} {st st2 : GenState}
    (hs : st.isSnapshot = true) (h : getVersion facts order st = .ok st2) :
    st2.isSnapshot = true := by
  unfold getVersion at h
  cases hvf : getVersionFile facts st with
  | error e =>
    rw [hvf] at h
    dsimp only at h
    by_cases hf : st.conf.fromFile
    · rw [if_pos hf] at h; exact Except.noConfusion h
    · rw [if_neg hf] at h
      dsimp only at h
      split at h
      · cases h; exact hs
      · exact getVersionByTag_ok_snapshot hs h
  | ok st1 =>
    rw [hvf] at h
    dsimp only at h
    have hs1 : st1.isSnapshot = true := by
      rcases getVersionFile_ok_spec hvf with rfl | ⟨sv, rfl⟩
      · exact hs
      · exact hs
    split at h
    · cases h; exact hs1
    · exact getVersionByTag_ok_snapshot hs1 h

/-! ## Concrete repositories used to evaluate the claims -/

def sv12 : SemVersion := { major := 1, minor := 2, patch := 0, pre := [], build := [] }

def sv13 : SemVersion := { major := 1, minor := 3, patch := 0, pre := [], build := [] }

def sv100 : SemVersion := { major := 1, minor := 0, patch := 0, pre := [], build := [] }

def svBeta : SemVersion :=
  { major := 2, minor := 0, patch := 0,
    pre := [{ versionStr := "beta", versionNum := 0, isNum := false }], build := [] }

/-- A clean repository whose only root commit carries a committer timestamp
one year *after* its child (git timestamps are arbitrary author-supplied
data, so such clock skew is representable): root `1` at second 31536000,
current commit `2` at second 0. -/
def c1xFacts : RepoFacts :=
  { isClean := true, headBranch := "master",
    currentCommit := { hash := 2, numParents := 1, committerTime := 0 },
    allLog := [{ hash := 1, numParents := 0, committerTime := 31536000 },
               { hash := 2, numParents := 1, committerTime := 0 }],
    headLog := [{ hash := 2, numParents := 1, committerTime := 0 },
                { hash := 1, numParents := 0, committerTime := 31536000 }],
    tags := [],
    commits := [{ hash := 1, numParents := 0, committerTime := 31536000 },
                { hash := 2, numParents := 1, committerTime := 0 }],
    versionFile := some "1.0.0" }

def c1xConf : Config :=
  { timeMultiplier := 1, addSnapshot := false, versionFileName := "VERSION",
    fromFile := false, fromTag := false, stableBranches := ["master"] }

/-- The `Version` the code produces on `c1xFacts`: note `buildID = 1`,
i.e. `2 + (-31536000 * 1) tdiv 31536000 = 2 - 1`. -/
def c1xVersion : Version :=
  { branch := "master", commit := hashHex 2, shortCommit := "0000000",
    semver := { sv100 with build := ["rev", "1"] }, buildID := 1 }

/-- The build ordinal as claim C1 words it (spec §4.2 step 6): elapsed
seconds clamped to be non-negative, then floor division of the scaled
product by `secondsPerYear`.  This definition follows the claim's words, for
comparison with `buildOrdinal`, which is translated from the code. -/
def claimedBuildID (totalCommits elapsedSeconds timeMultiplier : Int) : Int :=
  totalCommits + (max elapsedSeconds 0 * timeMultiplier).fdiv secondsYear

/-- Shared witness configuration: stable branch `master`, multiplier 1000. -/
def wConf : Config :=
  { timeMultiplier := 1000, addSnapshot := false, versionFileName := "VERSION",
    fromFile := false, fromTag := false, stableBranches := ["master"] }

/-- Shared witness repository facts. -/
def wFacts : RepoFacts :=
  { isClean := true, headBranch := "master",
    currentCommit := { hash := 2, numParents := 1, committerTime := 31536000 },
    allLog := [],
    headLog := [{ hash := 2, numParents := 1, committerTime := 31536000 }],
    tags := [], commits := [], versionFile := none }

/-- Shared witness generator state: base version `1.0.0`, two commits, root
at second 0, current commit exactly one year later. -/
def w1State : GenState :=
  { conf := wConf, branch := "master", semVer := some sv100,
    currentCommitHash := 2, versionCommit := none, initialCommit := some 1,
    initialCommitDate := 0, currentCommitDate := 31536000,
    versionCommitDate := 0, commitCount := 2,
    isSnapshot := false, isPre := false }

def w1Version : Version :=
  { branch := "master", commit := hashHex 2, shortCommit := "0000000",
    semver := { sv100 with build := ["rev", "1002"] }, buildID := 1002 }

/-! ## The claims -/

/-- **C1, counterexample.**  The claim computes the build ordinal from the
elapsed seconds *clamped to be non-negative*; the code does not clamp.  On
`c1xFacts` (current commit one year before the root commit, multiplier 1,
two commits in total) resolution succeeds with `BuildID = 1`, while the
claim's formula yields `2`. -/
theorem C1_counterexample :
    ResolveVersion c1xConf c1xFacts [] = .ok c1xVersion ∧
    c1xVersion.buildID = 1 ∧
    claimedBuildID 2 (0 - 31536000) 1 = 2 :=
  ⟨by decide, by decide, by decide⟩

/-- **C1** (amended).  For every resolution that succeeds, the produced
`BuildID` equals the `int64` value of `totalReachableCommitCount +
timeUnits`, where `elapsedSeconds` is the difference between the target and
root commit timestamps in whole seconds — not clamped to zero, but
saturating at the ±9223372036-second `time.Duration` range — and
`timeUnits = elapsedSeconds * timeMultiplier / secondsPerYear` with
two's-complement wrapping `int64` multiplication and toward-zero integer
division, the final addition also wrapping; in particular, with the target
commit one year after the root, `timeMultiplier = 1000` and a commit count
in `[0, 2^62)`, no wrap occurs and the `BuildID` is the total commit count
plus 1000. -/
theorem C1_buildID_formula {facts : RepoFacts} {st : GenState} {v : Version}
    (h : Generate facts st = .ok v) :
    v.buildID = wrap64 (st.commitCount +
      (wrap64 (elapsedSecondsInt64 st.currentCommitDate st.initialCommitDate *
        st.conf.timeMultiplier)).tdiv secondsYear) ∧
    (st.currentCommitDate = st.initialCommitDate + secondsYear →
      st.conf.timeMultiplier = 1000 →
      0 ≤ st.commitCount → st.commitCount < 2 ^ 62 →
      v.buildID = st.commitCount + 1000) := by
  have hb : v.buildID = buildOrdinal st := generate_ok_buildID h
  refine ⟨hb, ?_⟩
  intro h1 h2 hc0 hcb
  rw [hb]
  unfold buildOrdinal scaledTimeUnits
  rw [h1, h2]
  have he : elapsedSecondsInt64 (st.initialCommitDate + secondsYear)
      st.initialCommitDate = secondsYear := by
    unfold elapsedSecondsInt64 maxDurationSeconds secondsYear
    omega
  rw [he]
  have ht : (wrap64 (secondsYear * 1000)).tdiv secondsYear = 1000 := by decide
  rw [ht]
  exact wrap64_eq_self (by omega) (by omega)

/-- Witness for C1: on the one-year witness state the build ordinal is
`2 + 1000`. -/
theorem C1_buildID_formula_witness :
    w1State.currentCommitDate = w1State.initialCommitDate + secondsYear ∧
    w1State.conf.timeMultiplier = 1000 ∧
    Generate wFacts w1State = .ok w1Version ∧
    w1Version.buildID = w1State.commitCount + 1000 := by
  have hg : Generate wFacts w1State = .ok w1Version := by decide
  exact ⟨by decide, by decide, hg,
    (C1_buildID_formula hg).2 (by decide) (by decide) (by decide) (by decide)⟩

def x5Conf : Config := { wConf with timeMultiplier := 4611686018427387904 }

def x5aState : GenState := { w1State with conf := x5Conf, currentCommitDate := 25 }

def x5bState : GenState := { w1State with conf := x5Conf, currentCommitDate := 50 }

def x5aVersion : Version :=
  { branch := "master", commit := hashHex 2, shortCommit := "0000000",
    semver := { sv100 with build := ["rev", "146235604340"] },
    buildID := 146235604340 }

def x5bVersion : Version :=
  { branch := "master", commit := hashHex 2, shortCommit := "0000000",
    semver := { sv100 with build := ["rev", "-292471208675"] },
    buildID := -292471208675 }

/-- **C5, counterexample.**  With multiplier `2^62` and target commits 25
and 50 seconds after the root (all else equal, multiplier non-negative),
the `int64` product `elapsed * multiplier` wraps from `+2^62` to `-2^63` as
the timestamp grows, so the later commit yields the *smaller* `BuildID`
(`-292471208675 < 146235604340`): the claimed monotonicity for every
non-negative multiplier is false of the program. -/
theorem C5_counterexample :
    x5aState.commitCount = x5bState.commitCount ∧
    x5aState.initialCommitDate = x5bState.initialCommitDate ∧
    x5aState.conf.timeMultiplier = x5bState.conf.timeMultiplier ∧
    0 ≤ x5aState.conf.timeMultiplier ∧
    x5aState.currentCommitDate ≤ x5bState.currentCommitDate ∧
    Generate wFacts x5aState = .ok x5aVersion ∧
    Generate wFacts x5bState = .ok x5bVersion ∧
    x5bVersion.buildID < x5aVersion.buildID :=
  ⟨by decide, by decide, by decide, by decide, by decide,
   by decide, by decide, by decide⟩

/-- **C5** (amended).  For a fixed repository and configuration (commit
count, root timestamp and non-negative multiplier held equal), the build
ordinal is monotonically non-decreasing in the target commit's committer
timestamp, provided the `int64` arithmetic does not overflow: the scaled
products `elapsedSeconds * timeMultiplier` and the final sums
`commitCount + timeUnits` of both resolutions lie in `[-2^63, 2^63)` (the
±292-year saturation of the elapsed seconds itself is monotone and needs no
side condition). -/
theorem C5_buildID_monotone {facts1 facts2 : RepoFacts} {st1 st2 : GenState}
    {v1 v2 : Version}
    (hcc : st1.commitCount = st2.commitCount)
    (hic : st1.initialCommitDate = st2.initialCommitDate)
    (hm : st1.conf.timeMultiplier = st2.conf.timeMultiplier)
    (hm0 : 0 ≤ st1.conf.timeMultiplier)
    (hle : st1.currentCommitDate ≤ st2.currentCommitDate)
    (hprod1 : -(2 ^ 63) ≤ elapsedSecondsInt64 st1.currentCommitDate
        st1.initialCommitDate * st1.conf.timeMultiplier ∧
      elapsedSecondsInt64 st1.currentCommitDate st1.initialCommitDate *
        st1.conf.timeMultiplier < 2 ^ 63)
    (hprod2 : -(2 ^ 63) ≤ elapsedSecondsInt64 st2.currentCommitDate
        st2.initialCommitDate * st2.conf.timeMultiplier ∧
      elapsedSecondsInt64 st2.currentCommitDate st2.initialCommitDate *
        st2.conf.timeMultiplier < 2 ^ 63)
    (hsum1 : -(2 ^ 63) ≤ st1.commitCount + scaledTimeUnits st1 ∧
      st1.commitCount + scaledTimeUnits st1 < 2 ^ 63)
    (hsum2 : -(2 ^ 63) ≤ st2.commitCount + scaledTimeUnits st2 ∧
      st2.commitCount + scaledTimeUnits st2 < 2 ^ 63)
    (h1 : Generate facts1 st1 = .ok v1)
    (h2 : Generate facts2 st2 = .ok v2) :
    v1.buildID ≤ v2.buildID := by
  rw [generate_ok_buildID h1, generate_ok_buildID h2]
  unfold buildOrdinal
  rw [wrap64_eq_self hsum1.1 hsum1.2, wrap64_eq_self hsum2.1 hsum2.2, hcc]
  have hts : scaledTimeUnits st1 ≤ scaledTimeUnits st2 := by
    unfold scaledTimeUnits
    rw [wrap64_eq_self hprod1.1 hprod1.2, wrap64_eq_self hprod2.1 hprod2.2,
        hm, hic]
    exact tdiv_le_tdiv_of_le (by decide)
      (mul_le_mul_of_nonneg_right (elapsedSecondsInt64_mono hle) (hm ▸ hm0))
  omega

def w5State : GenState := { w1State with currentCommitDate := 63072000 }

def w5Version : Version :=
  { branch := "master", commit := hashHex 2, shortCommit := "0000000",
    semver := { sv100 with build := ["rev", "2002"] }, buildID := 2002 }

/-- Witness for C5: moving the current commit one further year ahead (no
overflow anywhere) raises the build ordinal from 1002 to 2002. -/
theorem C5_buildID_monotone_witness :
    Generate wFacts w1State = .ok w1Version ∧
    Generate wFacts w5State = .ok w5Version ∧
    w1State.currentCommitDate ≤ w5State.currentCommitDate ∧
    w1Version.buildID ≤ w5Version.buildID := by
  have hg1 : Generate wFacts w1State = .ok w1Version := by decide
  have hg5 : Generate wFacts w5State = .ok w5Version := by decide
  exact ⟨hg1, hg5, by decide,
    C5_buildID_monotone (by decide) (by decide) (by decide) (by decide)
      (by decide) (by decide) (by decide) (by decide) (by decide) hg1 hg5⟩

/-- **C3** (confirmed).  With snapshots disallowed, a dirty working tree
fails resolution with the dirty-tree error and no `Version` is produced;
with snapshots allowed, a dirty tree marks the produced state a snapshot
candidate. -/
theorem C3_dirty_tree_gate {conf : Config} {facts : RepoFacts}
    {order : List (Nat × SemVersion)} :
    (facts.isClean = false → conf.addSnapshot = false →
      NewGenerator conf facts order =
        .error "repository is not clean and add snapshot config is false") ∧
    (facts.isClean = false → conf.addSnapshot = true →
      ∀ st, NewGenerator conf facts order = .ok st → st.isSnapshot = true) := by
  constructor
  · intro hc hs
    unfold NewGenerator
    rw [hc, hs]
    rfl
  · intro hc hs st h
    unfold NewGenerator at h
    rw [hc, hs] at h
    simp only [Bool.not_false, Bool.not_true, Bool.and_false] at h
    rw [if_neg (by decide : ¬(false = true))] at h
    obtain ⟨ic, icd, hgi⟩ := getInitialCommit_spec facts
      (getCurrentCommit facts (getBranch facts (initState conf true)))
    rw [hgi] at h
    exact getVersion_ok_snapshot rfl h

def w3Facts : RepoFacts := { wFacts with isClean := false, versionFile := some "1.0.0" }

def w3bConf : Config := { wConf with addSnapshot := true }

/-- The generator state `NewGenerator` produces on the dirty witness
repository with snapshots allowed. -/
def w3State : GenState :=
  { conf := w3bConf, branch := "master", semVer := some sv100,
    currentCommitHash := 2, versionCommit := none, initialCommit := none,
    initialCommitDate := goZeroTime, currentCommitDate := 31536000,
    versionCommitDate := goZeroTime, commitCount := 0,
    isSnapshot := true, isPre := false }

/-- Witness for C3: the dirty witness repository fails without snapshots and
is marked a snapshot with them. -/
theorem C3_dirty_tree_gate_witness :
    NewGenerator wConf w3Facts [] =
      .error "repository is not clean and add snapshot config is false" ∧
    NewGenerator w3bConf w3Facts [] = .ok w3State ∧
    w3State.isSnapshot = true := by
  have hok : NewGenerator w3bConf w3Facts [] = .ok w3State := by decide
  exact ⟨(@C3_dirty_tree_gate wConf w3Facts []).1 rfl rfl, hok,
    (@C3_dirty_tree_gate w3bConf w3Facts []).2 rfl rfl w3State hok⟩

/-- **C6** (confirmed).  Stability of the current branch is decided by
case-insensitive comparison against the configured stable-branch set
(`isPre` is cleared exactly when some stable name matches), and for a
non-stable branch whose name is a valid pre-release identifier, a
successful `Generate` appends that identifier after the pre-release
identifiers already on the base version. -/
theorem C6_branch_stability_and_pre {facts : RepoFacts} {st : GenState}
    {v : Version} {sv0 : SemVersion} {p : PRVersion} :
    ((getBranch facts st).isPre = false ↔
      ∃ s, s ∈ st.conf.stableBranches ∧ equalFold facts.headBranch s = true) ∧
    (st.isPre = true → st.semVer = some sv0 →
      newPRVersion st.branch = .ok p → Generate facts st = .ok v →
      v.semver.pre = sv0.pre ++ [p]) := by
  constructor
  · unfold getBranch
    dsimp only
    rw [Bool.not_eq_false']
    exact List.any_eq_true
  · intro hp hsv hpr h
    exact generate_ok_pre hsv hp hpr h

def w6Facts : RepoFacts := { wFacts with headBranch := "develop" }

def w6State : GenState :=
  { w1State with branch := "develop", isPre := true, semVer := some svBeta }

def prDevelop : PRVersion := { versionStr := "develop", versionNum := 0, isNum := false }

def w6Version : Version :=
  { branch := "develop", commit := hashHex 2, shortCommit := "0000000",
    semver := { major := 2, minor := 0, patch := 0,
                pre := [{ versionStr := "beta", versionNum := 0, isNum := false },
                        prDevelop],
                build := ["rev", "1002"] },
    buildID := 1002 }

/-- Witness for C6: branch `develop` is not in the stable set `[master]`, and
the produced version's pre-release list is `beta` followed by `develop`. -/
theorem C6_branch_stability_and_pre_witness :
    ((getBranch w6Facts w6State).isPre = false ↔
      ∃ s, s ∈ w6State.conf.stableBranches ∧ equalFold w6Facts.headBranch s = true) ∧
    Generate w6Facts w6State = .ok w6Version ∧
    w6Version.semver.pre = svBeta.pre ++ [prDevelop] := by
  have hg : Generate w6Facts w6State = .ok w6Version := by decide
  have h := @C6_branch_stability_and_pre w6Facts w6State w6Version svBeta prDevelop
  exact ⟨h.1, hg, h.2 (by decide) (by decide) (by decide) hg⟩

/-- **C7** (confirmed).  Every successfully produced `Version` carries the
`rev, <BuildID>` pair at the head of its build metadata, and a snapshot
additionally carries `SNAPSHOT` followed by the (non-negative) count of
commits since the version commit date. -/
theorem C7_build_metadata {facts : RepoFacts} {st : GenState} {v : Version}
    (h : Generate facts st = .ok v) :
    v.semver.build = ["rev", toString v.buildID] ++
      (if st.isSnapshot then
        ["SNAPSHOT", toString (getCommitCountFrom facts st.versionCommitDate)]
      else []) ∧
    0 ≤ getCommitCountFrom facts st.versionCommitDate :=
  ⟨generate_ok_build h, getCommitCountFrom_nonneg facts st.versionCommitDate⟩

def w7State : GenState := { w1State with isSnapshot := true, versionCommitDate := 100 }

def w7Version : Version :=
  { branch := "master", commit := hashHex 2, shortCommit := "0000000",
    semver := { sv100 with build := ["rev", "1002", "SNAPSHOT", "1"] },
    buildID := 1002 }

/-- Witness for C7: the snapshot witness state yields build metadata
`rev, 1002, SNAPSHOT, 1`. -/
theorem C7_build_metadata_witness :
    Generate wFacts w7State = .ok w7Version ∧
    w7Version.semver.build = ["rev", toString w7Version.buildID] ++
      (if w7State.isSnapshot then
        ["SNAPSHOT", toString (getCommitCountFrom wFacts w7State.versionCommitDate)]
      else []) ∧
    0 ≤ getCommitCountFrom wFacts w7State.versionCommitDate := by
  have hg : Generate wFacts w7State = .ok w7Version := by decide
  exact ⟨hg, (C7_build_metadata hg).1, (C7_build_metadata hg).2⟩

/-- **C10** (confirmed).  When the branch is classified non-stable and its
name is not a valid pre-release identifier, `Generate` aborts with the
identifier error even though every repository query succeeded: no `Version`
is produced. -/
theorem C10_invalid_branch_pre_error {facts : RepoFacts} {st : GenState}
    {sv0 : SemVersion} {e : String}
    (hsv : st.semVer = some sv0) (hp : st.isPre = true)
    (hpr : newPRVersion st.branch = .error e) :
    Generate facts st = .error e :=
  generate_err_of_pre_err hsv hp hpr

def w10State : GenState :=
  { w1State with branch := "feature/x", isPre := true }

/-- Witness for C10: branch `feature/x` contains `'/'`, so resolution aborts
with the pre-release identifier error. -/
theorem C10_invalid_branch_pre_error_witness :
    w10State.isPre = true ∧
    newPRVersion w10State.branch =
      .error "PreRelease version must only contain [0-9A-Za-z-]" ∧
    Generate wFacts w10State =
      .error "PreRelease version must only contain [0-9A-Za-z-]" :=
  ⟨by decide, by decide,
    @C10_invalid_branch_pre_error wFacts w10State sv100
      "PreRelease version must only contain [0-9A-Za-z-]"
      (by decide) (by decide) (by decide)⟩

/-- **C9** (confirmed).  When the working-tree version file exists and its
trimmed contents parse tolerantly, and tag-sourcing is not required, the
file's version becomes the base version and the tag list is never consulted
(the result is the same for every tag list and map order); and a missing
version file is a normal empty result of `getVersionFile`, never an
error. -/
theorem C9_version_file_source {facts : RepoFacts} {st : GenState}
    {s : String} {sv : SemVersion}
    (hfile : facts.versionFile = some s)
    (hparse : parseTolerant ⟨trimChars s.data⟩ = .ok sv)
    (hnotag : st.conf.fromTag = false) :
    (∀ (tags2 : List (String × Nat)) (order2 : List (Nat × SemVersion)),
      getVersion { facts with tags := tags2 } order2 st =
        .ok { st with semVer := some sv }) ∧
    (∀ (facts2 : RepoFacts) (st2 : GenState), facts2.versionFile = none →
      getVersionFile facts2 st2 = .ok st2) := by
  constructor
  · intro tags2 order2
    have hvf : getVersionFile { facts with tags := tags2 } st =
        .ok { st with semVer := some sv } := by
      unfold getVersionFile
      dsimp only
      rw [hfile]
      dsimp only
      rw [hparse]
    unfold getVersion
    rw [hvf]
    dsimp only
    rw [hnotag]
    rfl
  · intro facts2 st2 h2
    exact getVersionFile_none h2

def w9Facts : RepoFacts := { wFacts with versionFile := some "2.0.0-beta" }

/-- Witness for C9: the file version `2.0.0-beta` is used even when a tag
`v9.9.9` points at the current commit, and the missing-file case returns the
state unchanged. -/
theorem C9_version_file_source_witness :
    w9Facts.versionFile = some "2.0.0-beta" ∧
    parseTolerant ⟨trimChars "2.0.0-beta".data⟩ = .ok svBeta ∧
    getVersion { w9Facts with tags := [("v9.9.9", 2)] } [] w1State =
      .ok { w1State with semVer := some svBeta } ∧
    getVersionFile wFacts w1State = .ok w1State := by
  have h := @C9_version_file_source w9Facts w1State "2.0.0-beta" svBeta
    (by decide) (by decide) (by decide)
  exact ⟨by decide, by decide, h.1 [("v9.9.9", 2)] [], h.2 wFacts w1State (by decide)⟩

/-- A clean repository with two tags at the current commit `5`: the first
(`rel`) does not parse as a semantic version, the second (`v1.0.0`) does. -/
def c4xFacts : RepoFacts :=
  { isClean := true, headBranch := "master",
    currentCommit := { hash := 5, numParents := 0, committerTime := 50 },
    allLog := [{ hash := 5, numParents := 0, committerTime := 50 }],
    headLog := [{ hash := 5, numParents := 0, committerTime := 50 }],
    tags := [("rel", 5), ("v1.0.0", 5)],
    commits := [{ hash := 5, numParents := 0, committerTime := 50 }],
    versionFile := none }

def c4xConf : Config :=
  { timeMultiplier := 1, addSnapshot := false, versionFileName := "VERSION",
    fromFile := false, fromTag := true, stableBranches := ["master"] }

/-- **C4, counterexample.**  The claim quantifies over *some* tag at the
target commit with a parseable name, but the scan stops at the *first* tag
pointing at the target: on `c4xFacts` the tag `v1.0.0` points at the target
commit and parses, yet resolution errors out instead of producing the
release match `1.0.0`, because the unparseable tag `rel` is encountered
first. -/
theorem C4_counterexample :
    ("v1.0.0", 5) ∈ c4xFacts.tags ∧
    c4xFacts.currentCommit.hash = 5 ∧
    parseTolerant "v1.0.0" = .ok sv100 ∧
    NewGenerator c4xConf c4xFacts [] =
      .error "could not find tag for commit 0000000000000000000000000000000000000005" :=
  ⟨by decide, rfl, by decide, by decide⟩

/-- **C4** (amended).  When the *first* tag (in enumeration order) whose
target commit equals the resolved target commit has a name that parses
tolerantly as a semantic version, that parsed version becomes the base
version as an exact release match, the version commit and version commit
date become the target commit and its timestamp, and the snapshot flag is
not touched by this lookup. -/
theorem C4_first_matching_tag_release {facts : RepoFacts}
    {order : List (Nat × SemVersion)} {st : GenState} {name : String}
    {hsh : Nat} {sv : SemVersion}
    (hfind : facts.tags.find? (fun p => p.2 == st.currentCommitHash) =
      some (name, hsh))
    (hparse : parseTolerant name = .ok sv) :
    getVersionByTag facts order st =
      .ok { st with versionCommit := some st.currentCommitHash,
                    versionCommitDate := st.currentCommitDate,
                    semVer := some sv } := by
  have hc : (scanTagsAux st.currentCommitHash facts.tags []).1 = name :=
    scanTags_cctag_of_find facts.tags (name, hsh) hfind []
  have hlen : name.length > 0 := by
    cases name with
    | mk data =>
      cases data with
      | nil =>
        rw [show (⟨[]⟩ : String) = "" from rfl] at hparse
        rw [show parseTolerant "" = .error "invalid syntax" from rfl] at hparse
        exact Except.noConfusion hparse
      | cons c cs => simp [String.length]
  unfold getVersionByTag
  dsimp only
  rw [hc, if_pos hlen, hparse]

def w4Facts : RepoFacts := { wFacts with tags := [("v1.0.0", 2)] }

/-- Witness for C4: the tag `v1.0.0` at the current commit `2` produces the
exact release match. -/
theorem C4_first_matching_tag_release_witness :
    w4Facts.tags.find? (fun p => p.2 == w1State.currentCommitHash) =
      some ("v1.0.0", 2) ∧
    parseTolerant "v1.0.0" = .ok sv100 ∧
    getVersionByTag w4Facts [] w1State =
      .ok { w1State with versionCommit := some w1State.currentCommitHash,
                         versionCommitDate := w1State.currentCommitDate,
                         semVer := some sv100 } :=
  ⟨by decide, by decide,
    @C4_first_matching_tag_release w4Facts [] w1State "v1.0.0" 2 sv100
      (by decide) (by decide)⟩

/-- When tag-sourcing is required, snapshots are disallowed and no tag name
parses, `getVersionByTag` fails with the could-not-find-tag error. -/
theorem getVersionByTag_err_no_parse {facts : RepoFacts}
    {order : List (Nat × SemVersion)} {st : GenState}
    (htag : st.conf.fromTag = true) (hsnap : st.conf.addSnapshot = false)
    (hnoparse : ∀ p ∈ facts.tags, exceptIsOk (parseTolerant p.1) = false) :
    getVersionByTag facts order st =
      .error ("could not find tag for commit " ++
        hashHex st.currentCommitHash) := by
  unfold getVersionByTag
  dsimp only
  have hex : (if (scanTagsAux st.currentCommitHash facts.tags []).1.length > 0
      then
        match parseTolerant (scanTagsAux st.currentCommitHash facts.tags []).1 with
        | .ok sv => some sv
        | .error _ => none
      else none) = none := by
    rcases @scanTags_cctag_mem st.currentCommitHash facts.tags []
      with he | ⟨hh, hmem⟩
    · rw [he]
      rfl
    · have hno := hnoparse _ hmem
      cases hp : parseTolerant (scanTagsAux st.currentCommitHash facts.tags []).1 with
      | ok sv => rw [hp] at hno; exact Bool.noConfusion hno
      | error e =>
        split
        · rfl
        · rfl
  rw [hex]
  dsimp only
  unfold tagFallback
  rw [htag, hsnap]
  rfl

/-- `getVersion` inherits the could-not-find-tag failure when the version
file is absent and the state carries no version yet. -/
theorem getVersion_err_no_parse {facts : RepoFacts}
    {order : List (Nat × SemVersion)} {st : GenState}
    (hsem : st.semVer = none)
    (htag : st.conf.fromTag = true) (hsnap : st.conf.addSnapshot = false)
    (hfile : facts.versionFile = none)
    (hnoparse : ∀ p ∈ facts.tags, exceptIsOk (parseTolerant p.1) = false) :
    getVersion facts order st =
      .error ("could not find tag for commit " ++
        hashHex st.currentCommitHash) := by
  unfold getVersion
  rw [getVersionFile_none hfile]
  dsimp only
  rw [hsem, htag]
  exact getVersionByTag_err_no_parse htag hsnap hnoparse

/-- **C8** (confirmed).  When tag-sourcing is required, no tag anywhere
parses as a semantic version, snapshots are not allowed, the working tree is
clean and no version file exists, resolution fails with the
could-not-find-tag error and produces no version. -/
theorem C8_no_version_tag_error {conf : Config} {facts : RepoFacts}
    {order : List (Nat × SemVersion)}
    (htag : conf.fromTag = true) (hsnap : conf.addSnapshot = false)
    (hclean : facts.isClean = true) (hfile : facts.versionFile = none)
    (hnoparse : ∀ p ∈ facts.tags, exceptIsOk (parseTolerant p.1) = false) :
    ResolveVersion conf facts order =
      .error ("could not find tag for commit " ++
        hashHex facts.currentCommit.hash) := by
  unfold ResolveVersion NewGenerator
  rw [hclean]
  simp only [Bool.not_true, Bool.false_and]
  rw [if_neg (by decide : ¬(false = true))]
  obtain ⟨ic, icd, hgi⟩ := getInitialCommit_spec facts
    (getCurrentCommit facts (getBranch facts (initState conf false)))
  rw [hgi]
  rw [getVersion_err_no_parse rfl htag hsnap hfile hnoparse]
  rfl

def c8wFacts : RepoFacts :=
  { isClean := true, headBranch := "master",
    currentCommit := { hash := 2, numParents := 1, committerTime := 600 },
    allLog := [{ hash := 2, numParents := 1, committerTime := 600 },
               { hash := 1, numParents := 0, committerTime := 100 }],
    headLog := [{ hash := 2, numParents := 1, committerTime := 600 },
                { hash := 1, numParents := 0, committerTime := 100 }],
    tags := [("bogus", 7), ("junk", 8)],
    commits := [{ hash := 1, numParents := 0, committerTime := 100 },
                { hash := 2, numParents := 1, committerTime := 600 }],
    versionFile := none }

def c8wConf : Config :=
  { timeMultiplier := 1, addSnapshot := false, versionFileName := "VERSION",
    fromFile := false, fromTag := true, stableBranches := ["master"] }

/-- Witness for C8: neither `bogus` nor `junk` parses, tag-sourcing is
required and snapshots are off, so resolution fails. -/
theorem C8_no_version_tag_error_witness :
    c8wConf.fromTag = true ∧
    c8wConf.addSnapshot = false ∧
    (∀ p ∈ c8wFacts.tags, exceptIsOk (parseTolerant p.1) = false) ∧
    ResolveVersion c8wConf c8wFacts [] =
      .error ("could not find tag for commit " ++
        hashHex c8wFacts.currentCommit.hash) :=
  ⟨rfl, rfl, by decide,
    C8_no_version_tag_error rfl rfl rfl rfl (by decide)⟩

/-- The repository of the C2 scenario: tags `v1.2.0` (commit 1, second 100)
and `v1.3.0` (commit 2, second 200), target commit 3 at second 300, neither
tag pointing at it; tag-sourcing required, snapshots allowed. -/
def c2xFacts : RepoFacts :=
  { isClean := true, headBranch := "master",
    currentCommit := { hash := 3, numParents := 1, committerTime := 300 },
    allLog := [{ hash := 3, numParents := 1, committerTime := 300 },
               { hash := 2, numParents := 1, committerTime := 200 },
               { hash := 1, numParents := 0, committerTime := 100 }],
    headLog := [{ hash := 3, numParents := 1, committerTime := 300 },
                { hash := 2, numParents := 1, committerTime := 200 },
                { hash := 1, numParents := 0, committerTime := 100 }],
    tags := [("v1.2.0", 1), ("v1.3.0", 2)],
    commits := [{ hash := 1, numParents := 0, committerTime := 100 },
                { hash := 2, numParents := 1, committerTime := 200 },
                { hash := 3, numParents := 1, committerTime := 300 }],
    versionFile := none }

def c2xConf : Config :=
  { timeMultiplier := 1000, addSnapshot := true, versionFileName := "VERSION",
    fromFile := false, fromTag := true, stableBranches := ["master"] }

/-- **C2, code bug.**  The selection loop stores `&t`, the address of the
single per-loop iteration variable, in `latest`, so `t.GT(*latest)` always
compares `t` with itself: the selected semantic version is the *last*
map-iterated entry and the selected hash the *first*, not the
highest-precedence tag.  On the C2 scenario repository, both lists below are
iteration orders of the collected tag map (permutations of its entries), and
`1.3.0` outranks `1.2.0`; yet under the first order resolution picks base
version `1.2.0` (marked snapshot), and under the second it picks `1.3.0` but
dates the version commit at second 100 — `v1.2.0`'s commit, not `v1.3.0`'s
(second 200) — so the snapshot commit count is taken from the wrong
commit.  In no iteration order does the code deliver what the claim (and
the evident intent of the `latest`/`GT` loop) requires. -/
theorem C2_map_order_divergence :
    List.Perm [(2, sv13), (1, sv12)] (scanTagsAux 3 c2xFacts.tags []).2 ∧
    List.Perm [(1, sv12), (2, sv13)] (scanTagsAux 3 c2xFacts.tags []).2 ∧
    svGT sv13 sv12 = true ∧
    Except.map (fun st => (st.semVer, st.isSnapshot))
        (NewGenerator c2xConf c2xFacts [(2, sv13), (1, sv12)]) =
      .ok (some sv12, true) ∧
    Except.map (fun st => (st.semVer, st.versionCommitDate))
        (NewGenerator c2xConf c2xFacts [(1, sv12), (2, sv13)]) =
      .ok (some sv13, 100) ∧
    (∀ c ∈ c2xFacts.commits, c.hash = 2 → c.committerTime = 200) :=
  ⟨by decide, by decide, by decide, by decide, by decide, by decide⟩

end SweetRelease
